import Mathlib

/-!
Verification of the dispatch/normalization core of the Prin Search CLI
(src/index.js), shallowly embedded in Lean 4.

The program forwards a prompt string to one of several LLM provider HTTP
APIs.  The embedding models the pure part of each provider caller: the
credential lookup against the process environment, the request each caller
would send (a `ProviderRequest` value stands for the single outbound HTTP
call), and the pure response normalizers.  Environment state is an explicit
map `Env` from variable names to optional string values; JavaScript
falsiness of strings (empty string is falsy) is modelled explicitly.
-/

namespace Prin

/-- Environment: a map from environment-variable names to their values;
`none` means the variable is unset. -/
abbrev Env := String → Option String

/-- JavaScript `String.prototype.toLowerCase` (ASCII range, which covers
every provider key): lower-case every character. -/
def jsToLower (s : String) : String :=
  ⟨s.data.map Char.toLower⟩

/-- Leading-match test on character lists, for `String.prototype.startsWith`. -/
def leadsWith : List Char → List Char → Bool
  | [], _ => true
  | _ :: _, [] => false
  | a :: as, b :: bs => a == b && leadsWith as bs

/-- JavaScript `s.startsWith(t)`. -/
def jsStartsWith (s t : String) : Bool :=
  leadsWith t.data s.data

/-- JavaScript `String.prototype.trim`: drop leading and trailing
whitespace characters. -/
def jsTrim (s : String) : String :=
  ⟨(((s.data.dropWhile Char.isWhitespace).reverse.dropWhile
      Char.isWhitespace).reverse)⟩

/-- JavaScript `Array.prototype.join('')` on an array of strings:
concatenate in order. -/
def joinAll : List String → String
  | [] => ""
  | s :: rest => s ++ joinAll rest

/-- JavaScript `m || d` for an optional string `m` against a string default
`d`: `null`/`undefined` and the empty string are falsy. -/
def jsOr (m : Option String) (d : String) : String :=
  match m with
  | some s => if s = "" then d else s
  | none => d

/-- JavaScript `a || b` on two optional strings (empty string falsy). -/
def jsOrOpt (a b : Option String) : Option String :=
  match a with
  | some s => if s = "" then b else some s
  | none => b

/-- Credential lookup as every caller performs it:
`const key = process.env.V; if (!key) throw new Error('Missing V')`.
Unset and empty-string values both fail. -/
def requireKey (env : Env) (v : String) : Except String String :=
  match env v with
  | some k => if k = "" then .error ("Missing " ++ v) else .ok k
  | none => .error ("Missing " ++ v)

/-- One chat message, as in `{ role: 'user', content: prompt }`. -/
structure Message where
  role : String
  content : String
deriving DecidableEq

/-- Body of an OpenAI-compatible chat-completions request:
`{ model, messages: [...] }`. -/
structure OpenAIBody where
  model : String
  messages : List Message
deriving DecidableEq

/-- Configuration of the OpenAI SDK client: `new OpenAI({ apiKey, ...(baseURL ? { baseURL } : {}) })`. -/
structure ClientConfig where
  apiKey : String
  baseURL : Option String
deriving DecidableEq

/-- The single outbound HTTP request a provider caller would issue.  Each
constructor records everything the corresponding SDK call receives. -/
inductive ProviderRequest where
  | openaiCompat (config : ClientConfig) (body : OpenAIBody)
  | gemini (apiKey : String) (model : String) (promptText : String)
  | claude (apiKey : String) (model : String) (maxTokens : Nat) (messages : List Message)
deriving DecidableEq

/-- The model identifier carried by a request. -/
def requestModel : ProviderRequest → String
  | .openaiCompat _ body => body.model
  | .gemini _ m _ => m
  | .claude _ m _ _ => m

/-- Hardcoded per-provider default models (the `DEFAULTS` object). -/
structure Defaults where
  openai : String
  gemini : String
  perplexity : String
  deepseek : String
  claude : String
  grok : String

/-- The `DEFAULTS` object of src/index.js, lines 26-33. -/
def DEFAULTS : Defaults :=
  ⟨"gpt-4o-mini", "gemini-1.5-flash", "sonar-pro", "deepseek-chat",
   "claude-3-5-sonnet-20240620", "grok-2-latest"⟩

/-- Request construction of `callOpenAI` (src/index.js lines 41-50): build a
client from `apiKey` and optional `baseURL`, and a chat-completions body with
a single user message carrying the prompt. -/
def callOpenAI (prompt : String) (model : String) (baseURL : Option String)
    (apiKey : String) : ProviderRequest :=
  .openaiCompat ⟨apiKey, baseURL⟩ ⟨model, [⟨"user", prompt⟩]⟩

/-- The `callGemini` caller (lines 54-61): check `GOOGLE_API_KEY`, then issue
a single-turn content-generation call carrying just the prompt text. -/
def callGemini (env : Env) (prompt : String) (model : String) :
    Except String ProviderRequest :=
  match requireKey env "GOOGLE_API_KEY" with
  | .error e => .error e
  | .ok key => .ok (.gemini key model prompt)

/-- The `callClaude` caller (lines 63-71): check `ANTHROPIC_API_KEY`, then
issue a message-creation call with `max_tokens` fixed at 1024 and a single
user message. -/
def callClaude (env : Env) (prompt : String) (model : String) :
    Except String ProviderRequest :=
  match requireKey env "ANTHROPIC_API_KEY" with
  | .error e => .error e
  | .ok key => .ok (.claude key model 1024 [⟨"user", prompt⟩])

/-- The `callPerplexity` caller (lines 78-83): check `PPLX_API_KEY`, then
delegate to `callOpenAI` with the Perplexity base URL. -/
def callPerplexity (env : Env) (prompt : String) (model : String) :
    Except String ProviderRequest :=
  match requireKey env "PPLX_API_KEY" with
  | .error e => .error e
  | .ok key => .ok (callOpenAI prompt model (some "https://api.perplexity.ai") key)

/-- The `callDeepSeek` caller (lines 86-90): check `DEEPSEEK_API_KEY`, then
delegate to `callOpenAI` with the DeepSeek base URL. -/
def callDeepSeek (env : Env) (prompt : String) (model : String) :
    Except String ProviderRequest :=
  match requireKey env "DEEPSEEK_API_KEY" with
  | .error e => .error e
  | .ok key => .ok (callOpenAI prompt model (some "https://api.deepseek.com/v1") key)

/-- The `callGrok` caller (lines 93-97): check `XAI_API_KEY`, then delegate
to `callOpenAI` with the xAI base URL. -/
def callGrok (env : Env) (prompt : String) (model : String) :
    Except String ProviderRequest :=
  match requireKey env "XAI_API_KEY" with
  | .error e => .error e
  | .ok key => .ok (callOpenAI prompt model (some "https://api.x.ai/v1") key)

/-- The router `ask(provider, prompt, model)` (src/index.js lines 100-115).
The switch matches the already-lowercased provider string exactly;
`'openai'`, `'chatgpt'` and every unmatched key fall through to the same
default branch, which checks `OPENAI_API_KEY` and calls `callOpenAI` with no
base-URL override.  `model || DEFAULTS.x` is `jsOr model DEFAULTS.x`. -/
def ask (env : Env) (provider : String) (prompt : String) (model : Option String) :
    Except String ProviderRequest :=
  if provider = "gemini" then callGemini env prompt (jsOr model DEFAULTS.gemini)
  else if provider = "claude" then callClaude env prompt (jsOr model DEFAULTS.claude)
  else if provider = "perplexity" then callPerplexity env prompt (jsOr model DEFAULTS.perplexity)
  else if provider = "deepseek" then callDeepSeek env prompt (jsOr model DEFAULTS.deepseek)
  else if provider = "grok" then callGrok env prompt (jsOr model DEFAULTS.grok)
  else
    match requireKey env "OPENAI_API_KEY" with
    | .error e => .error e
    | .ok key => .ok (callOpenAI prompt (jsOr model DEFAULTS.openai) none key)

/-- The CLI dispatch pipeline applied to a raw (not yet lowercased) provider
key: `PROVIDER = (...).toLowerCase()` (line 20) composed with `ask`. -/
def dispatchCLI (env : Env) (rawProvider : String) (prompt : String)
    (model : Option String) : Except String ProviderRequest :=
  ask env (jsToLower rawProvider) prompt model

/-- The environment variable each provider key's branch of `ask` requires;
every key outside the five specific cases (including openai and chatgpt)
resolves to the default branch with `OPENAI_API_KEY`. -/
def credVar : String → String
  | "gemini" => "GOOGLE_API_KEY"
  | "claude" => "ANTHROPIC_API_KEY"
  | "perplexity" => "PPLX_API_KEY"
  | "deepseek" => "DEEPSEEK_API_KEY"
  | "grok" => "XAI_API_KEY"
  | _ => "OPENAI_API_KEY"

/-! Response normalizers.  `callOpenAI` line 51 and `callClaude` lines 73-74
normalize the HTTP response into a single string; these are pure functions
of the response payload and are modelled separately from the request
construction above. -/

/-- The `message` object inside one choice of an OpenAI-compatible response;
its `content` field may be absent. -/
structure OAIMessage where
  content : Option String
deriving DecidableEq

/-- One element of the `choices` array; its `message` field may be absent. -/
structure OAIChoice where
  message : Option OAIMessage
deriving DecidableEq

/-- An OpenAI-compatible chat-completions response; the `choices` array
itself may be absent. -/
structure OAIResponse where
  choices : Option (List OAIChoice)
deriving DecidableEq

/-- Normalizer of `callOpenAI` (line 51):
`res.choices?.[0]?.message?.content || ''`.  Optional chaining is `Option.bind`;
`|| ''` collapses an absent (or empty) result to the empty string. -/
def normalizeOpenAI (res : OAIResponse) : String :=
  ((((res.choices.bind List.head?).bind OAIChoice.message).bind OAIMessage.content).getD "")

/-- One content block of a claude response; its `text` field may be absent. -/
structure ContentBlock where
  text : Option String
deriving DecidableEq

/-- Normalizer of `callClaude` (lines 73-74):
`res.content?.map(b => b.text || '').join('').trim()`, then `txt || ''`.
When `content` is absent the whole expression is `undefined` and the final
`|| ''` yields the empty string; the trailing `|| ''` is otherwise the
identity (a trimmed string is falsy only when it is already empty). -/
def normalizeClaude (content : Option (List ContentBlock)) : String :=
  match content with
  | none => ""
  | some blocks => jsTrim (joinAll (blocks.map fun b => b.text.getD ""))

/-! CLI argument parsing (src/index.js lines 13-23). -/

/-- `getArg(flag, fallback)` (lines 14-17): find the first occurrence of
`flag` in the argument list and return the following argument
(`args[i + 1] || null`, so a missing or empty follower yields `none`);
return `fallback` when the flag is absent. -/
def getArg (args : List String) (flag : String) (fallback : Option String) :
    Option String :=
  if args.contains flag then
    match args[args.indexOf flag + 1]? with
    | some v => if v = "" then none else some v
    | none => none
  else fallback

/-- `hasFlag(flag)` (line 18). -/
def hasFlag (args : List String) (flag : String) : Bool :=
  args.contains flag

/-- `PROVIDER` (line 20): `(getArg('-p') || getArg('--provider') || 'gemini').toLowerCase()`. -/
def PROVIDER (args : List String) : String :=
  jsToLower (jsOr (jsOrOpt (getArg args "-p" none) (getArg args "--provider" none)) "gemini")

/-- `MODEL` (line 21): `getArg('-m') || getArg('--model') || null`. -/
def MODEL (args : List String) : Option String :=
  jsOrOpt (getArg args "-m" none) (getArg args "--model" none)

/-- `PROMPT` (line 22):
`args.filter((a, i) => i === args.length - 1 && !a.startsWith('-'))[0]` —
keep exactly the element at the last index when it does not start with a
dash, and take the first element of the filtered array. -/
def PROMPT (args : List String) : Option String :=
  (((args.enum.filter fun p =>
      p.1 == args.length - 1 && !(jsStartsWith p.2 "-")).map Prod.snd).head?)

/-- `INTERACTIVE` (line 23): `hasFlag('-i') || hasFlag('--interactive')`. -/
def INTERACTIVE (args : List String) : Bool :=
  hasFlag args "-i" || hasFlag args "--interactive"

/-! The interactive loop `chatLoop` (lines 125-136), as a step function on
one input line.  The provider and model are fixed at loop start, so the
dispatch available inside the loop is a function of the input line alone;
`chatStep` is parameterized by that function, which lets independence from
dispatch (no dispatch invoked) be stated as invariance in the parameter. -/

/-- Outcome of one iteration of the interactive loop on one input line. -/
inductive StepResult where
  | skip
  | quit
  | answered (r : ProviderRequest)
  | errored (msg : String)
deriving DecidableEq

/-- Loop control state. -/
inductive LoopState where
  | awaiting
  | terminated
deriving DecidableEq

/-- One iteration of `chatLoop` on the input line `q` (lines 126-135):
`if (!q.trim()) continue; if (q.trim().toLowerCase() === '/exit') break;`
then `try { await ask(provider, q, model) } catch (e) { print e.message }`. -/
def chatStep (doAsk : String → Except String ProviderRequest) (q : String) :
    StepResult :=
  if jsTrim q = "" then .skip
  else if jsToLower (jsTrim q) = "/exit" then .quit
  else
    match doAsk q with
    | .ok r => .answered r
    | .error e => .errored e

/-- The loop state after one iteration: only the exit sentinel leaves the
loop (`break`); every other outcome continues (`continue` or loop back). -/
def nextState : StepResult → LoopState
  | .quit => .terminated
  | _ => .awaiting

/-- The loop run over a whole list of input lines, starting awaiting-input:
terminated as soon as one step breaks, awaiting more input otherwise. -/
def runLoop (doAsk : String → Except String ProviderRequest) :
    List String → LoopState
  | [] => .awaiting
  | q :: rest =>
    match chatStep doAsk q with
    | .quit => .terminated
    | _ => runLoop doAsk rest

/-! The program entry (lines 141-165). -/

/-- What the top-level IIFE does, observably. -/
inductive EntryAction where
  | interactive
  | usage
  | oneShot (outcome : Except String ProviderRequest)

deriving instance DecidableEq for Except

deriving instance DecidableEq for EntryAction

/-- The entry IIFE (lines 141-165): interactive mode runs the loop; in
one-shot mode a falsy `PROMPT` (absent, or the empty string) prints the
usage text and returns; otherwise `ask(PROVIDER, PROMPT, MODEL)` runs, its
error caught and printed.  The dispatch is a parameter, as in `chatStep`. -/
def entry (doAsk : Env → String → String → Option String → Except String ProviderRequest)
    (env : Env) (args : List String) : EntryAction :=
  if INTERACTIVE args then .interactive
  else
    match PROMPT args with
    | none => .usage
    | some p =>
      if p = "" then .usage
      else .oneShot (doAsk env (PROVIDER args) p (MODEL args))

/-! Auxiliary definitions used only to state the properties. -/

/-- A test environment in which every variable is set (to a nonempty
value derived from its name). -/
def envAll : Env := fun v => some ("key-" ++ v)

/-- A test environment in which no variable is set. -/
def envNone : Env := fun _ => none

/-- The per-provider default model as the specification documents it
(spec section 8 / claim C4), written out independently of `DEFAULTS` so
that the theorem compares the code's table against the spec's words. -/
def documentedDefault : String → String
  | "gemini" => "gemini-1.5-flash"
  | "claude" => "claude-3-5-sonnet-20240620"
  | "perplexity" => "sonar-pro"
  | "deepseek" => "deepseek-chat"
  | "grok" => "grok-2-latest"
  | _ => "gpt-4o-mini"

/-- Specification-side description of the claude normalizer: the in-order
concatenation of each block's `text` field, absent fields contributing the
empty string. -/
def concatTexts : List ContentBlock → String
  | [] => ""
  | b :: rest => b.text.getD "" ++ concatTexts rest

/-- The last argument position is occupied by the value of a preceding
flag: some flag-shaped argument occurs in the list, and the position right
after its first occurrence (the position `getArg` would consume as that
flag's value) is the last position. -/
def lastArgIsFlagValue (args : List String) : Prop :=
  ∃ f, f ∈ args ∧ jsStartsWith f "-" = true ∧ args.indexOf f + 1 = args.length - 1

/-- Claim C9 as stated, formalized for refutation: the dispatched prompt
equals the last argument exactly when that argument does not begin with a
dash and is positional, i.e. not the value of a preceding flag. -/
def promptClaimAsStated : Prop :=
  ∀ (args : List String) (a : String),
    PROMPT args = some a ↔
      (args.getLast? = some a ∧ jsStartsWith a "-" = false ∧ ¬ lastArgIsFlagValue args)

end Prin

namespace Prin

/-- Claim C1: dispatching with an unrecognized provider key, with the empty
string, or with the synonym "chatgpt" behaves identically to dispatching
with "openai": any key outside the five specifically-matched cases reaches
the same default branch, so the whole dispatch result (the `OPENAI_API_KEY`
credential check, the builder and its default model) coincides with the
"openai" dispatch for every prompt, model override and environment. -/
theorem ask_unrecognized_eq_openai (env : Env) (prompt : String) (model : Option String)
    (p : String) (h1 : p ≠ "gemini") (h2 : p ≠ "claude") (h3 : p ≠ "perplexity")
    (h4 : p ≠ "deepseek") (h5 : p ≠ "grok") :
    ask env p prompt model = ask env "openai" prompt model := by
  simp [ask, h1, h2, h3, h4, h5]

/-- Witness for C1 at the three keys the claim names: "foo", "", "chatgpt". -/
theorem ask_unrecognized_eq_openai_witness :
    ask envAll "foo" "hi" none = ask envAll "openai" "hi" none ∧
    ask envAll "" "hi" none = ask envAll "openai" "hi" none ∧
    ask envAll "chatgpt" "hi" none = ask envAll "openai" "hi" none :=
  ⟨ask_unrecognized_eq_openai envAll "hi" none "foo"
      (by decide) (by decide) (by decide) (by decide) (by decide),
   ask_unrecognized_eq_openai envAll "hi" none ""
      (by decide) (by decide) (by decide) (by decide) (by decide),
   ask_unrecognized_eq_openai envAll "hi" none "chatgpt"
      (by decide) (by decide) (by decide) (by decide) (by decide)⟩

/-- Claim C2: for every provider key in the documented set, when the
resolved provider's credential environment variable is unset, dispatch
fails with the missing-credential error; no `ProviderRequest` (the model's
stand-in for a network call) is ever produced. -/
theorem ask_missing_credential_errors (p : String) (env : Env) (prompt : String)
    (model : Option String)
    (hp : p ∈ ["openai", "chatgpt", "gemini", "claude", "perplexity", "deepseek", "grok"])
    (habs : env (credVar p) = none) :
    ask env p prompt model = .error ("Missing " ++ credVar p) := by
  fin_cases hp <;>
    simp_all [ask, credVar, callGemini, callClaude, callPerplexity, callDeepSeek,
      callGrok, requireKey]

/-- Witness for C2: "gemini" in the empty environment. -/
theorem ask_missing_credential_errors_witness :
    ask envNone "gemini" "hi" none = .error "Missing GOOGLE_API_KEY" :=
  ask_missing_credential_errors "gemini" envNone "hi" none (by decide) rfl

/-- Claim C3: the CLI dispatch pipeline lowercases the raw provider key
before the router's exact match, so any casing of a known key selects the
same branch (the same full dispatch result) as the lowercase key. -/
theorem dispatchCLI_case_insensitive (env : Env) (s prompt : String)
    (model : Option String) (k : String)
    (_hmem : k ∈ ["gemini", "claude", "perplexity", "deepseek", "grok", "openai", "chatgpt"])
    (h : jsToLower s = k) :
    dispatchCLI env s prompt model = ask env k prompt model := by
  unfold dispatchCLI
  rw [h]

/-- Witness for C3: the casing "GeMiNi" of "gemini". -/
theorem dispatchCLI_case_insensitive_witness :
    dispatchCLI envAll "GeMiNi" "hi" none = ask envAll "gemini" "hi" none :=
  dispatchCLI_case_insensitive envAll "GeMiNi" "hi" none "gemini" (by decide) (by decide)

/-- Claim C4: with no model override, each provider key's dispatch carries
that provider's documented hardcoded default model (chatgpt sharing the
openai default), whenever the credential is present so that a request is
actually built. -/
theorem ask_default_model (p : String) (env : Env) (prompt : String)
    (hp : p ∈ ["openai", "gemini", "claude", "perplexity", "deepseek", "grok", "chatgpt"])
    (k : String) (hk : env (credVar p) = some k) (hne : k ≠ "") :
    ∃ r, ask env p prompt none = .ok r ∧ requestModel r = documentedDefault p := by
  fin_cases hp <;>
    simp_all [ask, credVar, callGemini, callClaude, callPerplexity,
      callDeepSeek, callGrok, callOpenAI, requireKey, jsOr, requestModel,
      documentedDefault, DEFAULTS]

/-- Witness for C4: "claude" in the fully-populated environment. -/
theorem ask_default_model_witness :
    ∃ r, ask envAll "claude" "hi" none = .ok r ∧
      requestModel r = "claude-3-5-sonnet-20240620" :=
  ask_default_model "claude" envAll "hi" (by decide) "key-ANTHROPIC_API_KEY"
    (by decide) (by decide)

/-- Claim C7: for each OpenAI-compatible provider key, the dispatched
request is an OpenAI-compatible request whose messages field is the
single-element array with role "user" and the prompt passed through
unmodified, for every prompt and model override (credential present). -/
theorem ask_openaiCompat_messages (p prompt : String) (model : Option String)
    (env : Env) (hp : p ∈ ["openai", "perplexity", "deepseek", "grok"])
    (k : String) (hk : env (credVar p) = some k) (hne : k ≠ "") :
    ∃ config body, ask env p prompt model = .ok (.openaiCompat config body) ∧
      body.messages = [⟨"user", prompt⟩] := by
  fin_cases hp <;>
    simp_all [ask, credVar, callPerplexity, callDeepSeek,
      callGrok, callOpenAI, requireKey] <;>
    exact ⟨_, _, ⟨rfl, rfl⟩, rfl⟩

/-- Witness for C7: "perplexity" in the fully-populated environment. -/
theorem ask_openaiCompat_messages_witness :
    ∃ config body,
      ask envAll "perplexity" "hi" none = .ok (.openaiCompat config body) ∧
      body.messages = [⟨"user", "hi"⟩] :=
  ask_openaiCompat_messages "perplexity" "hi" none envAll (by decide)
    "key-PPLX_API_KEY" (by decide) (by decide)


/-- Every element of the claude normalizer's mapped array joined in order
is the specification's in-order concatenation of text fields. -/
theorem joinAll_map_concatTexts (blocks : List ContentBlock) :
    joinAll (blocks.map fun b => b.text.getD "") = concatTexts blocks := by
  induction blocks with
  | nil => rfl
  | cons b rest ih => simp [joinAll, concatTexts, ih]

/-- Claim C5: the OpenAI-compatible normalizer returns the empty string
whenever any segment of the path `choices[0].message.content` is absent
(absent or empty choices included), and returns exactly
`choices[0].message.content` when the full path is present. -/
theorem normalizeOpenAI_spec (res : OAIResponse) :
    (res.choices = none → normalizeOpenAI res = "") ∧
    (res.choices = some [] → normalizeOpenAI res = "") ∧
    (∀ c cs, res.choices = some (c :: cs) → c.message = none →
      normalizeOpenAI res = "") ∧
    (∀ c cs m, res.choices = some (c :: cs) → c.message = some m →
      m.content = none → normalizeOpenAI res = "") ∧
    (∀ c cs m s, res.choices = some (c :: cs) → c.message = some m →
      m.content = some s → normalizeOpenAI res = s) := by
  refine ⟨fun h => ?_, fun h => ?_, fun c cs h hm => ?_,
    fun c cs m h hm hc => ?_, fun c cs m s h hm hc => ?_⟩ <;>
    simp [normalizeOpenAI, *]

/-- Witness for C5: a full path carrying "hi", an absent choices field, and
an empty choices array. -/
theorem normalizeOpenAI_spec_witness :
    normalizeOpenAI ⟨some [⟨some ⟨some "hi"⟩⟩]⟩ = "hi" ∧
    normalizeOpenAI ⟨none⟩ = "" ∧
    normalizeOpenAI ⟨some []⟩ = "" :=
  ⟨(normalizeOpenAI_spec _).2.2.2.2 _ _ _ "hi" rfl rfl rfl,
   (normalizeOpenAI_spec _).1 rfl,
   (normalizeOpenAI_spec _).2.1 rfl⟩

/-- Claim C6: the claude normalizer returns the in-order concatenation of
the blocks' text fields (absent fields contributing the empty string),
trimmed of leading and trailing whitespace; in particular on
`[\x7btext:"a"\x7d, \x7b\x7d, \x7btext:"b"\x7d]` it returns "ab". -/
theorem normalizeClaude_spec :
    (∀ blocks, normalizeClaude (some blocks) = jsTrim (concatTexts blocks)) ∧
    normalizeClaude (some [⟨some "a"⟩, ⟨none⟩, ⟨some "b"⟩]) = "ab" := by
  refine ⟨fun blocks => ?_, by decide⟩
  simp [normalizeClaude, joinAll_map_concatTexts]

/-- A step leads out of the loop exactly when it is the break step. -/
theorem nextState_terminated_iff (r : StepResult) :
    nextState r = .terminated ↔ r = .quit := by
  cases r <;> simp [nextState]

/-- The loop breaks on an input line exactly when the line, trimmed and
lowercased, is the exit sentinel. -/
theorem chatStep_quit_iff (d : String → Except String ProviderRequest) (q : String) :
    chatStep d q = .quit ↔ jsToLower (jsTrim q) = "/exit" := by
  unfold chatStep
  by_cases h1 : jsTrim q = ""
  · rw [if_pos h1, h1]
    decide
  · rw [if_neg h1]
    by_cases h2 : jsToLower (jsTrim q) = "/exit"
    · rw [if_pos h2]
      simp [h2]
    · rw [if_neg h2]
      cases hd : d q <;> simp [h2]

/-- If a run of the loop over a list of input lines terminates, some input
line was the exit sentinel. -/
theorem runLoop_terminated_mem (d : String → Except String ProviderRequest) :
    ∀ inputs : List String, runLoop d inputs = .terminated →
      ∃ x ∈ inputs, jsToLower (jsTrim x) = "/exit" := by
  intro inputs
  induction inputs with
  | nil => intro h; exact absurd h (by simp [runLoop])
  | cons q rest ih =>
    intro h
    rcases hc : chatStep d q with _ | _ | r | m
    case quit => exact ⟨q, by simp, (chatStep_quit_iff d q).mp hc⟩
    all_goals
      simp only [runLoop, hc] at h
    all_goals
      obtain ⟨x, hx, hxe⟩ := ih h
    all_goals
      exact ⟨x, by simp [hx], hxe⟩

/-- Claim C8: one step of the interactive loop on input line q: a
whitespace-only line skips without invoking dispatch (the outcome is
independent of the dispatch function), a line whose trimmed, lowercased
form is "/exit" terminates without invoking dispatch, a dispatch failure
surfaces exactly the error message and returns to awaiting-input, and the
loop leaves the awaiting state only on the exit sentinel — over any whole
run, termination requires some input line to be the sentinel. -/
theorem chatStep_interactive_spec (d d2 : String → Except String ProviderRequest)
    (q : String) :
    (jsTrim q = "" → chatStep d q = .skip ∧ chatStep d q = chatStep d2 q) ∧
    (jsToLower (jsTrim q) = "/exit" →
      chatStep d q = .quit ∧ chatStep d q = chatStep d2 q) ∧
    (∀ msg, d q = .error msg → jsTrim q ≠ "" → jsToLower (jsTrim q) ≠ "/exit" →
      chatStep d q = .errored msg ∧ nextState (chatStep d q) = .awaiting) ∧
    (nextState (chatStep d q) = .terminated ↔ jsToLower (jsTrim q) = "/exit") ∧
    (∀ inputs : List String, runLoop d inputs = .terminated →
      ∃ x ∈ inputs, jsToLower (jsTrim x) = "/exit") := by
  refine ⟨fun h1 => ?_, fun h2 => ?_, fun msg hd h1 h2 => ?_, ?_,
    runLoop_terminated_mem d⟩
  · constructor <;> simp [chatStep, h1]
  · have h1 : jsTrim q ≠ "" := by
      intro hq
      rw [hq] at h2
      exact absurd h2 (by decide)
    constructor <;> simp [chatStep, h1, h2]
  · constructor <;> simp [chatStep, h1, h2, hd, nextState]
  · rw [nextState_terminated_iff, chatStep_quit_iff]

/-- Witness for C8: with a dispatch that always fails, "/EXIT" quits,
whitespace skips, and a normal line surfaces the dispatch error. -/
theorem chatStep_interactive_spec_witness :
    chatStep (fun _ => .error "no key") "/EXIT" = .quit ∧
    chatStep (fun _ => .error "no key") "  " = .skip ∧
    chatStep (fun _ => .error "no key") "hello" = .errored "no key" :=
  ⟨((chatStep_interactive_spec (fun _ => .error "no key")
      (fun _ => .error "no key") "/EXIT").2.1 (by decide)).1,
   ((chatStep_interactive_spec (fun _ => .error "no key")
      (fun _ => .error "no key") "  ").1 (by decide)).1,
   ((chatStep_interactive_spec (fun _ => .error "no key")
      (fun _ => .error "no key") "hello").2.2.1 "no key" rfl
      (by decide) (by decide)).1⟩

/-- Filtering an enumerated concatenation for its last index keeps exactly
the final element (when the element predicate accepts it). -/
theorem enumFrom_filter_last (l : List String) (a : String) (k : Nat) :
    (List.enumFrom k (l ++ [a])).filter
        (fun p => p.1 == k + l.length && !(jsStartsWith p.2 "-")) =
      if !(jsStartsWith a "-") then [(k + l.length, a)] else [] := by
  induction l generalizing k with
  | nil =>
    by_cases hb : jsStartsWith a "-" = true <;>
      simp [List.enumFrom, List.filter, hb]
  | cons b t ih =>
    have harith : k + (b :: t).length = (k + 1) + t.length := by
      simp [List.length_cons]
      omega
    rw [harith]
    simp only [List.cons_append, List.enumFrom_cons, List.filter_cons]
    have hcond : (k == (k + 1) + t.length && !(jsStartsWith b "-")) = false := by
      have hne : k ≠ (k + 1) + t.length := by omega
      simp [hne]
    simp only [hcond]
    simp only [Bool.false_eq_true, if_false]
    exact ih (k + 1)

/-- The `PROMPT` computation picks out the last argument when it does not
start with a dash, and nothing otherwise. -/
theorem PROMPT_eq_getLast (args : List String) :
    PROMPT args =
      match args.getLast? with
      | none => none
      | some a => if jsStartsWith a "-" then none else some a := by
  rcases List.eq_nil_or_concat args with rfl | ⟨l, a, rfl⟩
  · rfl
  · simp only [List.concat_eq_append]
    unfold PROMPT
    have hl : (l ++ [a]).length - 1 = 0 + l.length := by simp
    rw [hl]
    have he : (l ++ [a]).enum = List.enumFrom 0 (l ++ [a]) := rfl
    rw [he, enumFrom_filter_last l a 0, List.getLast?_concat]
    by_cases hb : jsStartsWith a "-" = true <;> simp [hb]

/-- Counterexample to claim C9 as stated: with the argument list
["-p", "gemini"], the token "gemini" is the value consumed by the
preceding -p flag (not a positional argument), yet the program takes it as
the prompt and dispatches it; so "is a positional argument (not the value
of a preceding flag)" is not part of the condition the code implements. -/
theorem promptClaim_counterexample :
    ¬ promptClaimAsStated ∧
    entry ask envAll ["-p", "gemini"] = .oneShot (ask envAll "gemini" "gemini" none) := by
  constructor
  · intro h
    have h2 := (h ["-p", "gemini"] "gemini").mp (by decide)
    exact h2.2.2 ⟨"-p", by decide, by decide, by decide⟩
  · decide

/-- Claim C9 amended: the dispatched prompt equals the last argument
exactly when that argument does not begin with "-"; the code does not
additionally exclude arguments that are the values of preceding flags. -/
theorem PROMPT_eq_last_nonflag (args : List String) (a : String) :
    PROMPT args = some a ↔
      (args.getLast? = some a ∧ jsStartsWith a "-" = false) := by
  rw [PROMPT_eq_getLast]
  rcases h : args.getLast? with _ | b
  · simp
  · by_cases hb : jsStartsWith b "-" = true
    · simp only [hb, if_true]
      constructor
      · intro h2
        cases h2
      · rintro ⟨hba, hf⟩
        rw [Option.some_inj] at hba
        subst hba
        rw [hb] at hf
        cases hf
    · rw [Bool.not_eq_true] at hb
      simp only [hb, Bool.false_eq_true, if_false, Option.some_inj]
      constructor
      · rintro rfl
        exact ⟨rfl, hb⟩
      · rintro ⟨rfl, _⟩
        rfl

/-- Witness for the amended C9: a single positional argument is the prompt. -/
theorem PROMPT_eq_last_nonflag_witness : PROMPT ["hello"] = some "hello" :=
  (PROMPT_eq_last_nonflag ["hello"] "hello").mpr ⟨rfl, by decide⟩

/-- Claim C10: in one-shot mode with no prompt argument, the entry prints
the usage text and returns: the outcome is `usage`, independent of both the
environment (no credential is read) and the dispatch function (dispatch is
never invoked), and no error is raised. -/
theorem entry_no_prompt_usage
    (doAsk doAsk2 : Env → String → String → Option String → Except String ProviderRequest)
    (env env2 : Env) (args : List String)
    (hni : INTERACTIVE args = false) (hp : PROMPT args = none) :
    entry doAsk env args = .usage ∧ entry doAsk env args = entry doAsk2 env2 args := by
  constructor <;> simp [entry, hni, hp]

/-- Witness for C10: the empty argument list. -/
theorem entry_no_prompt_usage_witness : entry ask envNone [] = .usage :=
  (entry_no_prompt_usage ask ask envNone envNone [] rfl rfl).1

end Prin
